import Mathlib

/-
Shallow embedding of the sharp-bunny image-processing pipeline.

Sources embedded here:
- producer.js: job store helpers (readJobs, writeJobs), the log-exchange
  consumer that merges status events into the job store, and the upload
  dispatch handler.
- worker.js (the full version, startWorker): the resize worker state
  machine with retry and dead-letter handling, the retry relay, and the
  success-path job store write.
- worker-watermark.js: the watermark worker consume handler.

Environment inputs (clock readings, uuid generation, the sharp transform
outcome, file system read results, broker channel availability) are
modeled as explicit parameters. JS objects with possibly absent fields
are modeled with Option fields; JS truthiness of strings (undefined or
empty string is falsy) and the nullish operator are modeled explicitly.
-/

namespace SharpBunny

/-- Status strings appearing in the source: queued, processing, success,
failed, retried, dead, watermarked. -/
inductive Status where
  | queued
  | processing
  | success
  | failed
  | retried
  | dead
  | watermarked
deriving Repr, DecidableEq

/-- JS `a || b` on possibly-absent strings: an absent or empty string is
falsy, so it falls through to the right operand. -/
def jsOrS : Option String → Option String → Option String
  | some s, b => if s = "" then b else some s
  | none, b => b

/-- JS truthiness of a possibly-absent string value. -/
def jsTruthyS : Option String → Bool
  | some s => s ≠ ""
  | none => false

/-- Lower-casing of a string, character by character (the NFKD step of
the source is the identity on the ASCII characters involved). -/
def lcStr (s : String) : String :=
  String.mk (s.toList.map Char.toLower)

/-- Whether a character list starts with a given pattern. -/
def startsWithL : List Char → List Char → Bool
  | _, [] => true
  | [], _ :: _ => false
  | c :: cs, p :: ps => c == p && startsWithL cs ps

/-- Whether a pattern occurs anywhere in a character list. -/
def includesL (pat : List Char) : List Char → Bool
  | [] => pat.isEmpty
  | c :: cs => startsWithL (c :: cs) pat || includesL pat cs

/-- JS String.prototype.includes. -/
def strIncludes (s pat : String) : Bool :=
  includesL pat.toList s.toList

/-- path.basename for forward-slash paths: the part after the last slash
(paths produced by multer carry no trailing slash). -/
def basename (p : String) : String :=
  String.mk ((p.toList.reverse.takeWhile (fun c => c != '/')).reverse)

/-- Characters matched by the regex class \w (ASCII word characters). -/
def wordChar (c : Char) : Bool :=
  c.isAlphanum || c == '_'

/-- Characters matched by the regex class \s (ASCII whitespace). -/
def wsChar (c : Char) : Bool :=
  c == ' ' || c == '\t' || c == '\n' || c == '\r'

/-- The regex replace of a final extension: name.replace of a dot followed
by one or more characters none of which is a slash or a dot, anchored at
the end. Matches exactly when the string ends in a dot-extension whose
extension part is nonempty and free of slashes and further dots. -/
def dropExtension (s : String) : String :=
  let r := s.toList.reverse
  let ext := r.takeWhile (fun c => c != '.' && c != '/')
  match r.drop ext.length with
  | '.' :: tail => if ext.isEmpty then s else String.mk tail.reverse
  | _ => s

/-- Replace every whitespace run by a single dash (the trailing regex
replace in sanitizeBaseName); the flag records whether the previous
character was part of a whitespace run. -/
def collapseWs : Bool → List Char → List Char
  | _, [] => []
  | prevWs, c :: rest =>
    if wsChar c then
      (if prevWs then [] else ['-']) ++ collapseWs true rest
    else
      c :: collapseWs false rest

/-- sanitizeBaseName from producer.js and worker.js: drop the extension,
lower-case, remove symbols (keep word characters, whitespace and dashes),
trim, turn whitespace runs into dashes, and fall back to "file" when the
result is empty. The NFKD normalization step is the identity on the ASCII
characters kept by the following filter. -/
def sanitizeBaseName (name : String) : String :=
  let cs := (lcStr (dropExtension name)).toList.filter
    (fun c => wordChar c || wsChar c || c == '-')
  let cs := ((cs.dropWhile wsChar).reverse.dropWhile wsChar).reverse
  let b := String.mk (collapseWs false cs)
  if b = "" then ("file") else b

/-- shortId from producer.js and worker.js: drop dashes from the id and
keep the first eight characters. -/
def shortId (id : String) : String :=
  String.mk ((id.toList.filter (fun c => c != '-')).take 8)

/-- A status event published on the logs fanout exchange. Absent fields
are none; jobId is optional because the log consumer guards on it. -/
structure LogEvent where
  jobId : Option String := none
  filename : Option String := none
  originalName : Option String := none
  processedFilename : Option String := none
  status : Option Status := none
  worker : Option String := none
  retries : Option Nat := none
  duration : Option String := none
  error : Option String := none
  timestamp : String := ""
deriving Repr, DecidableEq

/-- A record stored in jobs.json under a job id. Every field can be
absent on a freshly created empty object. -/
structure JobRecord where
  id : Option String := none
  filename : Option String := none
  originalName : Option String := none
  status : Option Status := none
  retries : Option Nat := none
  duration : Option String := none
  error : Option String := none
  createdAt : Option String := none
  lastUpdated : Option String := none
  processedFilename : Option String := none
  watermarkedFilename : Option String := none
deriving Repr, DecidableEq

/-- The job store mapping, keyed by job id. -/
abbrev JobMap := List (String × JobRecord)

/-- Lookup of a job id in the store. -/
def findJob : JobMap → String → Option JobRecord
  | [], _ => none
  | (k, v) :: rest, jid => if k = jid then some v else findJob rest jid

/-- Insert or replace the record stored under a job id. -/
def insertJob : JobMap → String → JobRecord → JobMap
  | [], jid, v => [(jid, v)]
  | (k, w) :: rest, jid, v =>
    if k = jid then (jid, v) :: rest else (k, w) :: insertJob rest jid v

/-- readJobs from producer.js and worker.js: read the store file and parse
it, returning the empty mapping when the read throws, when the content is
empty (falsy), or when parsing throws; the catch swallows the fault after
logging it, so no failure reaches the caller. The file read outcome and
the JSON parser are environment inputs. -/
def readJobs (raw : Except String String)
    (parseJSON : String → Except String JobMap) : JobMap :=
  match raw with
  | .error _ => []
  | .ok s =>
    if s = "" then []
    else
      match parseJSON s with
      | .error _ => []
      | .ok m => m

/-- The record produced by one store merge in the log consumer of
producer.js. The JS assignments run in sequence on the stored object;
no assignment reads a field written earlier in the same run, so they are
gathered into one record expression:
- id is set to the event jobId;
- originalName is preserved when already truthy, else taken from a truthy
  event originalName;
- filename is the event filename when truthy, else the stored one;
- processedFilename is overwritten with the event filename on a success
  status;
- status is overwritten with the event status (the later reassignment of
  a dead status writes the same value);
- retries is the event value when present, else the stored value, else 0;
- duration and error are overwritten only when truthy on the event;
- lastUpdated is set to the event timestamp. -/
def mergeRecord (old : JobRecord) (jid : String) (log : LogEvent) : JobRecord :=
  { id := some jid
    originalName :=
      if !jsTruthyS old.originalName && jsTruthyS log.originalName then
        log.originalName
      else old.originalName
    filename := jsOrS log.filename old.filename
    processedFilename :=
      if log.status = some Status.success then log.filename
      else old.processedFilename
    status := log.status
    retries := some ((log.retries <|> old.retries).getD 0)
    duration := if jsTruthyS log.duration then log.duration else old.duration
    error := if jsTruthyS log.error then log.error else old.error
    createdAt := old.createdAt
    lastUpdated := some log.timestamp
    watermarkedFilename := old.watermarkedFilename }

/-- One store merge: fetch the stored record (a fresh empty object when
absent), merge the event into it, and write it back. -/
def mergeLog (jobs : JobMap) (jid : String) (log : LogEvent) : JobMap :=
  insertJob jobs jid (mergeRecord ((findJob jobs jid).getD {}) jid log)

/-- The store effect of one consumed log message in producer.js: the store
is touched only when the event carries a truthy jobId. -/
def consumeLogStore (jobs : JobMap) (log : LogEvent) : JobMap :=
  match log.jobId with
  | some jid => if jid = "" then jobs else mergeLog jobs jid log
  | none => jobs

/-- Result of the log-exchange consume handler: the store file content
afterwards, the events re-emitted to socket subscribers, and how many
times the message was acknowledged. -/
structure LogConsumeResult where
  store : JobMap
  emitted : List LogEvent
  acks : Nat
deriving Repr, DecidableEq

/-- The log-exchange consume handler of producer.js. The body is a
try/catch/finally: on a JSON parse failure the catch only logs and the
finally acknowledges, so the store is untouched and nothing is emitted.
When the store write throws (modeled by writeOk = false), the canonical
file is unchanged because the write goes to a temporary file first, the
emit after it is skipped, and the finally still acknowledges. An event
without a truthy jobId skips the store entirely but is still emitted. -/
def logConsumeHandle (jobs : JobMap) (parsed : Option LogEvent)
    (writeOk : Bool) : LogConsumeResult :=
  match parsed with
  | none => { store := jobs, emitted := [], acks := 1 }
  | some log =>
    if jsTruthyS log.jobId then
      if writeOk then
        { store := consumeLogStore jobs log, emitted := [log], acks := 1 }
      else
        { store := jobs, emitted := [], acks := 1 }
    else
      { store := jobs, emitted := [log], acks := 1 }

/-- Maximum retry count from worker.js (MAX_RETRIES, default 3). -/
def MAX_RETRIES : Nat := 3

/-- A job descriptor on the main, retry and dead queues, as built by the
upload dispatcher and consumed by the resize worker. -/
structure JobMsg where
  jobId : String := ""
  filepath : Option String := none
  filename : Option String := none
  originalName : Option String := none
  retries : Option Nat := none
  createdAt : Option String := none
deriving Repr, DecidableEq

/-- The payload sent to the dead queue by the worker failure branch. -/
structure DeadJob where
  jobId : String
  filepath : Option String := none
  processedFilename : String
  retries : Nat
deriving Repr, DecidableEq

/-- The name the worker checks and sanitizes:
originalName or filename or the basename of the filepath. -/
def workerOrig (msg : JobMsg) : String :=
  (jsOrS msg.originalName
    (jsOrS msg.filename (some (basename (msg.filepath.getD ("")))))).getD ("")

/-- The deterministic processed output name derived by the worker:
sanitized base name, a dash, the short id of the job, and a jpg suffix. -/
def workerProcFilename (msg : JobMsg) : String :=
  sanitizeBaseName (workerOrig msg) ++ "-" ++ shortId msg.jobId ++ ".jpg"

/-- The fault-injection seam of the worker: force a failure when the
checked name contains the marker substring and this is the first attempt. -/
def simFailCond (msg : JobMsg) : Bool :=
  strIncludes (lcStr (workerOrig msg)) "fail" && (msg.retries.getD 0 == 0)

/-- The message of the error thrown by the fault-injection seam. -/
def simFailMsg : String :=
  "Simulated failure (first attempt for \x27fail\x27 filename)"

/-- The processing event published on message receipt by the worker. -/
def workerProcessingEv (msg : JobMsg) (wid now : String) : LogEvent :=
  { jobId := some msg.jobId
    filename := some (workerProcFilename msg)
    originalName := jsOrS msg.originalName none
    status := some Status.processing
    worker := some wid
    retries := some (msg.retries.getD 0)
    timestamp := now }

/-- The success event published by the worker, carrying the duration, the
produced output name, and the pre-increment retry count. -/
def workerSuccessEv (msg : JobMsg) (duration wid now : String) : LogEvent :=
  { jobId := some msg.jobId
    filename := some (workerProcFilename msg)
    originalName := jsOrS msg.originalName none
    processedFilename := some (workerProcFilename msg)
    status := some Status.success
    worker := some wid
    duration := some duration
    retries := some (msg.retries.getD 0)
    timestamp := now }

/-- The failed event published by the worker, carrying the error and the
pre-increment retry count. -/
def workerFailedEv (msg : JobMsg) (err wid now : String) : LogEvent :=
  { jobId := some msg.jobId
    filename := some (workerProcFilename msg)
    originalName := jsOrS msg.originalName none
    status := some Status.failed
    worker := some wid
    retries := some (msg.retries.getD 0)
    error := some err
    timestamp := now }

/-- The retried event published after the retry submission, carrying the
incremented retry count. -/
def workerRetriedEv (msg : JobMsg) (newRetries : Nat) (wid now : String) : LogEvent :=
  { jobId := some msg.jobId
    filename := some (workerProcFilename msg)
    originalName := jsOrS msg.originalName none
    status := some Status.retried
    worker := some wid
    retries := some newRetries
    timestamp := now }

/-- The dead event published after the dead-queue submission, carrying the
incremented retry count. -/
def workerDeadEv (msg : JobMsg) (newRetries : Nat) (wid now : String) : LogEvent :=
  { jobId := some msg.jobId
    filename := some (workerProcFilename msg)
    originalName := jsOrS msg.originalName none
    status := some Status.dead
    worker := some wid
    retries := some newRetries
    timestamp := now }

/-- The direct job store write performed by the worker success path: it
reads the store, sets processedFilename, originalName (first truthy of
the message originalName, the stored one, and the checked name), a
success status and lastUpdated on the record, and writes the store back. -/
def workerSuccessStore (jobs : JobMap) (msg : JobMsg) (now : String) : JobMap :=
  let old := (findJob jobs msg.jobId).getD {}
  insertJob jobs msg.jobId
    { old with
      processedFilename := some (workerProcFilename msg)
      originalName :=
        jsOrS msg.originalName (jsOrS old.originalName (some (workerOrig msg)))
      status := some Status.success
      lastUpdated := some now }

/-- Result of the worker main-queue consume handler: the events published
to the logs exchange in publish order, the optional retry submission (the
timer delay in milliseconds and the payload), the optional dead-queue
submission, the job store file content afterwards, and the count of
acknowledgements. -/
structure WorkerResult where
  events : List LogEvent
  retrySub : Option (Nat × JobMsg) := none
  deadSub : Option DeadJob := none
  store : JobMap
  acks : Nat
deriving Repr, DecidableEq

/-- The main-queue consume handler of worker.js. A message whose payload
fails to parse is acknowledged and skipped. Otherwise a processing event
is published at the current retry count; the transform runs (its outcome
and the elapsed duration are environment inputs, and the fault-injection
seam forces a failure on a first attempt at a marked name). On success
the worker publishes the success event, writes the output reference into
the job store directly, deletes the input (not modeled beyond the store)
and acknowledges. On failure it publishes a failed event with the
pre-increment count, then either submits to the dead queue and publishes
a dead event (incremented count at the maximum) or schedules a retry
submission after a fixed 3000 ms delay followed by a retried event;
either way the message is acknowledged. -/
def startWorkerHandle (parsed : Option JobMsg) (sharpOk : Bool)
    (errMsg duration now wid : String) (jobsFile : JobMap) : WorkerResult :=
  match parsed with
  | none => { events := [], store := jobsFile, acks := 1 }
  | some msg =>
    let r := msg.retries.getD 0
    let pEv := workerProcessingEv msg wid now
    if simFailCond msg || !sharpOk then
      let err := if simFailCond msg then simFailMsg else errMsg
      let newRetries := r + 1
      let fEv := workerFailedEv msg err wid now
      if newRetries ≥ MAX_RETRIES then
        { events := [pEv, fEv, workerDeadEv msg newRetries wid now]
          deadSub := some
            { jobId := msg.jobId
              filepath := msg.filepath
              processedFilename := workerProcFilename msg
              retries := newRetries }
          store := jobsFile
          acks := 1 }
      else
        { events := [pEv, fEv, workerRetriedEv msg newRetries wid now]
          retrySub := some (3000, { msg with retries := some newRetries })
          store := jobsFile
          acks := 1 }
    else
      { events := [pEv, workerSuccessEv msg duration wid now]
        store := workerSuccessStore jobsFile msg now
        acks := 1 }

/-- The retry queue consumer of worker.js: it forwards the payload to the
main queue unchanged. -/
def retryRelayForward (job : JobMsg) : JobMsg := job

/-- The sequence of status events a job gives rise to over its lifetime:
each attempt runs the main-queue handler, and when the handler schedules
a retry submission the retry relay forwards the incremented payload back
to the main queue for the next attempt. The outcome function gives the
transform result for the attempt at each retry count; the fuel bounds the
recursion and MAX_RETRIES is enough for any fresh job. -/
def jobTrace (outcome : Nat → Bool) (errMsg duration now wid : String)
    (jobsFile : JobMap) : JobMsg → Nat → List LogEvent
  | _, 0 => []
  | msg, fuel + 1 =>
    let res := startWorkerHandle (some msg) (outcome (msg.retries.getD 0))
      errMsg duration now wid jobsFile
    res.events ++
      match res.retrySub with
      | some (_, msgN) =>
        jobTrace outcome errMsg duration now wid jobsFile (retryRelayForward msgN) fuel
      | none => []

/-- The retry counters attached to a sequence of events. -/
def retriesOf (evs : List LogEvent) : List Nat :=
  evs.filterMap LogEvent.retries

/-- Maximum batch size of an upload (MAX_UPLOAD, default 20). -/
def MAX_UPLOAD : Nat := 20

/-- One input of an upload batch: the multer temp path and the original
client-side name. -/
structure UploadFile where
  path : String
  originalname : String
deriving Repr, DecidableEq

/-- The accumulated effects of the upload dispatch loop: the job store
content, the descriptors submitted to the main queue, the queued events
published to the logs exchange, and the temp files deleted for skipped
duplicates. -/
structure DispatchAcc where
  store : JobMap
  queueSubs : List JobMsg
  queuedEvents : List LogEvent
  deleted : List String
deriving Repr, DecidableEq

/-- The result of the upload endpoint: the dispatch effects, the response
body and the HTTP status code. -/
structure UploadResult where
  store : JobMap
  queueSubs : List JobMsg
  queuedEvents : List LogEvent
  deleted : List String
  response : String
  statusCode : Nat
deriving Repr, DecidableEq

/-- The per-file loop of the upload endpoint in producer.js. The set of
lower-cased names in the processed directory is computed once before the
loop. A file whose lower-cased original name is in that set is skipped:
its temp file is deleted and nothing else happens, leaving the fresh-id
counter unconsumed. Otherwise a fresh id is drawn, an initial queued
record is placed in the store, and when the broker channel is available
the descriptor is submitted to the main queue and a queued event is
published; when the channel is unavailable only a warning is logged —
the store record remains. -/
def dispatchLoop (existing : List String) (ids : Nat → String)
    (channelReady : Bool) (now : String) :
    List UploadFile → Nat → JobMap → DispatchAcc
  | [], _, jobs => { store := jobs, queueSubs := [], queuedEvents := [], deleted := [] }
  | f :: rest, i, jobs =>
    if (existing.map lcStr).contains (lcStr f.originalname) then
      let acc := dispatchLoop existing ids channelReady now rest i jobs
      { acc with deleted := f.path :: acc.deleted }
    else
      let jid := ids i
      let descriptor : JobMsg :=
        { jobId := jid
          filepath := some f.path
          filename := some (basename f.path)
          originalName := some f.originalname
          retries := some 0
          createdAt := some now }
      let record : JobRecord :=
        { id := some jid
          filename := some (basename f.path)
          originalName := some f.originalname
          status := some Status.queued
          retries := some 0
          createdAt := some now
          lastUpdated := some now }
      let jobs := insertJob jobs jid record
      if channelReady then
        let queuedEv : LogEvent :=
          { jobId := some jid
            filename := some (basename f.path)
            originalName := some f.originalname
            status := some Status.queued
            retries := some 0
            worker := none
            timestamp := now }
        let acc := dispatchLoop existing ids channelReady now rest (i + 1) jobs
        { acc with
          queueSubs := descriptor :: acc.queueSubs
          queuedEvents := queuedEv :: acc.queuedEvents }
      else
        dispatchLoop existing ids channelReady now rest (i + 1) jobs

/-- The upload endpoint of producer.js after multer: reject an empty
batch or an oversized batch (deleting the temp files in the oversized
case), otherwise run the dispatch loop over the batch, persist the store
and answer that the files were queued — the response counts the whole
batch and does not depend on the channel having been available. -/
def uploadHandle (files : List UploadFile) (existing : List String)
    (ids : Nat → String) (channelReady : Bool) (now : String)
    (jobs0 : JobMap) : UploadResult :=
  if files.length = 0 then
    { store := jobs0, queueSubs := [], queuedEvents := [], deleted := []
      response := "No files uploaded.", statusCode := 400 }
  else if MAX_UPLOAD < files.length then
    { store := jobs0, queueSubs := [], queuedEvents := []
      deleted := files.map UploadFile.path
      response := "Maximum 20 files allowed.", statusCode := 400 }
  else
    let acc := dispatchLoop existing ids channelReady now files 0 jobs0
    { store := acc.store
      queueSubs := acc.queueSubs
      queuedEvents := acc.queuedEvents
      deleted := acc.deleted
      response := toString files.length ++ " file(s) queued."
      statusCode := 200 }

/-- A watermark job descriptor as enqueued by the add-watermark endpoint
and consumed by worker-watermark.js. -/
structure WmJobMsg where
  jobId : String := ""
  processedPath : Option String := none
  processedFilename : Option String := none
  watermarkedFilename : Option String := none
  originalName : Option String := none
  retries : Option Nat := none
deriving Repr, DecidableEq

/-- Result of the watermark consume handler: the events published to the
logs exchange in publish order and the count of acknowledgements. The
handler makes no queue submissions and never writes the job store. -/
structure WmResult where
  events : List LogEvent
  acks : Nat
deriving Repr, DecidableEq

/-- The consume handler of worker-watermark.js. A payload that fails to
parse is acknowledged and skipped. Otherwise the composite transform runs
(its outcome is an environment input): on success the worker publishes a
success event and then a watermarked event, both without retries or
duration fields, and acknowledges; on failure the catch only logs to the
console and the message is acknowledged — no event is published and
there is no retry or dead-letter submission. No processing event is ever
published. -/
def watermarkHandle (parsed : Option WmJobMsg) (transformOk : Bool)
    (now wid : String) : WmResult :=
  match parsed with
  | none => { events := [], acks := 1 }
  | some job =>
    if transformOk then
      let orig := jsOrS job.originalName job.processedFilename
      { events :=
          [ { jobId := some job.jobId
              filename := job.watermarkedFilename
              originalName := orig
              status := some Status.success
              worker := some wid
              timestamp := now }
          , { jobId := some job.jobId
              filename := job.watermarkedFilename
              originalName := orig
              status := some Status.watermarked
              worker := some wid
              timestamp := now } ]
        acks := 1 }
    else
      { events := [], acks := 1 }

/-! Helper lemmas about the store mapping. -/

theorem findJob_insertJob_self (m : JobMap) (k : String) (v : JobRecord) :
    findJob (insertJob m k v) k = some v := by
  induction m with
  | nil => simp [insertJob, findJob]
  | cons hd tl ih =>
    obtain ⟨k0, v0⟩ := hd
    by_cases h : k0 = k <;> simp [insertJob, findJob, h, ih]

theorem consumeLogStore_find (jobs : JobMap) (log : LogEvent) (jid : String)
    (hjid : log.jobId = some jid) (hne : jid ≠ "") :
    findJob (consumeLogStore jobs log) jid =
      some (mergeRecord ((findJob jobs jid).getD {}) jid log) := by
  simp [consumeLogStore, hjid, hne, mergeLog, findJob_insertJob_self]

/-! Claim theorems. -/

/-- C1: the log consumer of producer.js performs no state-machine
validation when merging a status event: starting from a store whose
record for j1 has status success, merging a stale processing event for
j1 overwrites the stored status with processing, so the stored status
does not remain success as the claim requires. -/
theorem broadcaster_merge_regresses_success :
    (findJob
      (consumeLogStore
        [("j1", { id := some ("j1"), status := some Status.success,
                  retries := some 0, lastUpdated := some ("t1") })]
        { jobId := some ("j1"), status := some Status.processing,
          retries := some 0, timestamp := "t2" })
      "j1").bind JobRecord.status = some Status.processing := by
  rfl

/-- C8: readJobs returns the empty mapping whenever the store file read
fails (missing or unreadable file), whenever the content fails to parse,
and for falsy empty content; it is a total function into the mapping
type, so the swallowed fault is never propagated to the caller of an
operation that reads the store. -/
theorem readJobs_fault_returns_empty (e s pe : String)
    (parseJSON : String → Except String JobMap) :
    readJobs (.error e) parseJSON = [] ∧
    readJobs (.ok s) (fun _ => .error pe) = [] ∧
    readJobs (.ok ("")) parseJSON = [] := by
  refine ⟨rfl, ?_, rfl⟩
  by_cases h : s = "" <;> simp [readJobs, h]

/-- C9: every message delivered to the log consumer is acknowledged
exactly once (the acknowledgement sits in the finally of the handler); a
payload that fails to parse leaves the store unchanged and re-emits
nothing, and a store write that throws also leaves the canonical store
file unchanged (the write goes to a temporary file before the atomic
rename) and skips the re-emit, while still acknowledging once. -/
theorem log_consumer_ack_once_and_error_frame (jobs : JobMap)
    (parsed : Option LogEvent) (ev : LogEvent) (writeOk : Bool)
    (h : jsTruthyS ev.jobId = true) :
    (logConsumeHandle jobs parsed writeOk).acks = 1 ∧
    logConsumeHandle jobs none writeOk = { store := jobs, emitted := [], acks := 1 } ∧
    logConsumeHandle jobs (some ev) false = { store := jobs, emitted := [], acks := 1 } := by
  refine ⟨?_, rfl, by simp [logConsumeHandle, h]⟩
  cases parsed with
  | none => rfl
  | some log =>
    by_cases h1 : jsTruthyS log.jobId <;> by_cases h2 : writeOk <;>
      simp [logConsumeHandle, h1, h2]

/-- C9 witness: the acknowledgement and error-frame facts evaluated on a
concrete store, a concrete parse failure and a concrete event. -/
theorem log_consumer_ack_once_and_error_frame_witness :
    jsTruthyS (LogEvent.jobId { jobId := some ("j1"), timestamp := "t" }) = true ∧
    ((logConsumeHandle [] (some { jobId := some ("j1"), timestamp := "t" }) true).acks = 1 ∧
      logConsumeHandle [] none true = { store := [], emitted := [], acks := 1 } ∧
      logConsumeHandle [] (some { jobId := some ("j1"), timestamp := "t" }) false =
        { store := [], emitted := [], acks := 1 }) :=
  ⟨by decide,
    log_consumer_ack_once_and_error_frame []
      (some { jobId := some ("j1"), timestamp := "t" })
      { jobId := some ("j1"), timestamp := "t" } true (by decide)⟩

/-- C10: after the log consumer merges any event carrying a truthy jobId,
the record stored under that key has its id field equal to the key, and
its retries field is defined: the event value when present, else the
prior stored value, else zero. -/
theorem merge_sets_id_and_retries (jobs : JobMap) (log : LogEvent) (jid : String)
    (hjid : log.jobId = some jid) (hne : jid ≠ "") :
    ∃ rec, findJob (consumeLogStore jobs log) jid = some rec ∧
      rec.id = some jid ∧
      rec.retries =
        some ((log.retries <|> ((findJob jobs jid).getD {}).retries).getD 0) := by
  exact ⟨mergeRecord ((findJob jobs jid).getD {}) jid log,
    consumeLogStore_find jobs log jid hjid hne, rfl, rfl⟩

/-- C10 witness: the merge of a concrete retry-free event into an empty
store yields a record with the key as id and retries defaulted to zero. -/
theorem merge_sets_id_and_retries_witness :
    ∃ rec, findJob (consumeLogStore []
        { jobId := some ("j1"), status := some Status.queued, timestamp := "t" }) "j1" =
          some rec ∧
      rec.id = some ("j1") ∧
      rec.retries =
        some (((LogEvent.retries
            { jobId := some ("j1"), status := some Status.queued, timestamp := "t" }) <|>
          ((findJob ([] : JobMap) "j1").getD {}).retries).getD 0) :=
  merge_sets_id_and_retries []
    { jobId := some ("j1"), status := some Status.queued, timestamp := "t" } "j1"
    rfl (by decide)

/-- C5: a batch input whose lower-cased original name is among the
lower-cased produced filenames of the processed directory is skipped by
the dispatcher: relative to dispatching the rest of the batch from the
same state, the store, the queue submissions and the queued events are
identical and the fresh-id counter is not consumed (same index i on both
sides, so no new job id is drawn); only the temp file of the skipped
input is deleted. Consequently resubmitting a single such input through
the upload endpoint creates zero new jobs: the store is unchanged and
there is no queue submission and no queued event. -/
theorem dispatch_skips_existing_output (existing : List String)
    (ids : Nat → String) (channelReady : Bool) (now : String)
    (f : UploadFile) (rest : List UploadFile) (i : Nat) (jobs : JobMap)
    (h : (existing.map lcStr).contains (lcStr f.originalname) = true) :
    (dispatchLoop existing ids channelReady now (f :: rest) i jobs =
      { dispatchLoop existing ids channelReady now rest i jobs with
        deleted := f.path ::
          (dispatchLoop existing ids channelReady now rest i jobs).deleted }) ∧
    (uploadHandle [f] existing ids channelReady now jobs).store = jobs ∧
    (uploadHandle [f] existing ids channelReady now jobs).queueSubs = [] ∧
    (uploadHandle [f] existing ids channelReady now jobs).queuedEvents = [] := by
  have knil : dispatchLoop existing ids channelReady now [] 0 jobs =
      { store := jobs, queueSubs := [], queuedEvents := [], deleted := [] } := rfl
  have kcons : ∀ (r : List UploadFile) (i : Nat),
      dispatchLoop existing ids channelReady now (f :: r) i jobs =
        { dispatchLoop existing ids channelReady now r i jobs with
          deleted := f.path ::
            (dispatchLoop existing ids channelReady now r i jobs).deleted } := by
    intro r i
    simp only [dispatchLoop]
    rw [h]
    simp
  have ksingle : uploadHandle [f] existing ids channelReady now jobs =
      { store := jobs, queueSubs := [], queuedEvents := [], deleted := [f.path]
        response := toString (List.length [f]) ++ " file(s) queued."
        statusCode := 200 } := by
    unfold uploadHandle
    rw [if_neg (by simp), if_neg (by norm_num [MAX_UPLOAD]), kcons [] 0, knil]
  exact ⟨kcons rest i, by rw [ksingle], by rw [ksingle], by rw [ksingle]⟩

/-- C5 witness: a resubmitted input whose original name matches an
existing produced filename up to case is skipped on a concrete batch. -/
theorem dispatch_skips_existing_output_witness :
    ((["cat.jpg"].map lcStr).contains (lcStr ("Cat.JPG")) = true) ∧
    ((dispatchLoop ["cat.jpg"] (fun _ => "id-1") true ("t0")
        [{ path := "uploads/tmp1", originalname := "Cat.JPG" }] 0 [] =
      { dispatchLoop ["cat.jpg"] (fun _ => "id-1") true ("t0") [] 0 [] with
        deleted := "uploads/tmp1" ::
          (dispatchLoop ["cat.jpg"] (fun _ => "id-1") true ("t0") [] 0 []).deleted }) ∧
    (uploadHandle [{ path := "uploads/tmp1", originalname := "Cat.JPG" }]
        ["cat.jpg"] (fun _ => "id-1") true ("t0") []).store = [] ∧
    (uploadHandle [{ path := "uploads/tmp1", originalname := "Cat.JPG" }]
        ["cat.jpg"] (fun _ => "id-1") true ("t0") []).queueSubs = [] ∧
    (uploadHandle [{ path := "uploads/tmp1", originalname := "Cat.JPG" }]
        ["cat.jpg"] (fun _ => "id-1") true ("t0") []).queuedEvents = []) :=
  ⟨by decide,
    dispatch_skips_existing_output ["cat.jpg"] (fun _ => "id-1") true ("t0")
      { path := "uploads/tmp1", originalname := "Cat.JPG" } [] 0 [] (by decide)⟩

/-- C6: when the broker channel is unavailable the upload handler still
persists a status-queued record for a fresh input and still answers with
a success message claiming the file was queued, although nothing was
submitted to the main queue and no queued event was published; evaluated
on one fresh file with no channel, the store gains a queued record while
the response reads that one file was queued with status 200. This
contradicts the claim that no queued record is persisted and no success
response is returned when the descriptor cannot be submitted. -/
theorem dispatch_reports_queued_without_channel :
    uploadHandle [{ path := "uploads/tmp1", originalname := "cat.jpg" }]
        [] (fun _ => "id-1") false ("t0") [] =
      { store := [("id-1",
          { id := some ("id-1"), filename := some ("tmp1"),
            originalName := some ("cat.jpg"), status := some Status.queued,
            retries := some 0, createdAt := some ("t0"), lastUpdated := some ("t0") })]
        queueSubs := []
        queuedEvents := []
        deleted := []
        response := "1 file(s) queued."
        statusCode := 200 } := by
  decide

/-- C7: the watermark worker does not realize the same state machine as
the resize worker: on a concrete watermark job message it publishes only
a success and then a watermarked event (never a processing event), and
when the transform fails it publishes nothing at all — no failed event
and no retried or dead path — while still acknowledging, refuting the
claimed processing event and FAILED to RETRIED/DEAD behavior. -/
theorem watermark_worker_no_processing_event :
    ((watermarkHandle
        (some { jobId := "w1"
                processedFilename := some ("cat-abc.jpg")
                watermarkedFilename := some ("cat-abc_wm.jpg") })
        true ("t") "wm-1").events.map LogEvent.status =
      [some Status.success, some Status.watermarked]) ∧
    watermarkHandle
        (some { jobId := "w1"
                processedFilename := some ("cat-abc.jpg")
                watermarkedFilename := some ("cat-abc_wm.jpg") })
        false ("t") "wm-1" =
      { events := [], acks := 1 } := by
  exact ⟨rfl, rfl⟩

/-- C7 amended: the watermark worker acknowledges every message exactly
once; on a successful transform it publishes exactly a success event
followed by a watermarked event, both lacking the retries and duration
fields of the resize-worker events; on a failed transform, and on a
payload that fails to parse, it publishes nothing; it never publishes a
processing event and makes no retry or dead submission (the handler has
no submission effect in the source). -/
theorem watermark_worker_event_behavior (msg : WmJobMsg) (now wid : String) :
    (watermarkHandle (some msg) true now wid).acks = 1 ∧
    (watermarkHandle (some msg) false now wid).acks = 1 ∧
    ((watermarkHandle (some msg) true now wid).events.map LogEvent.status =
      [some Status.success, some Status.watermarked]) ∧
    ((watermarkHandle (some msg) true now wid).events.map LogEvent.retries =
      [none, none]) ∧
    ((watermarkHandle (some msg) true now wid).events.map LogEvent.duration =
      [none, none]) ∧
    (watermarkHandle (some msg) false now wid).events = [] ∧
    watermarkHandle none false now wid = { events := [], acks := 1 } := by
  exact ⟨rfl, rfl, rfl, rfl, rfl, rfl, rfl⟩

/-- C2: for a job message whose transform fails (outside the
fault-injection seam, so the published error is the transform error), the
worker publishes, in order, a processing event, a failed event carrying
the error and the pre-increment retry count r, and a third event at the
incremented count: below MAX_RETRIES it is a retried event, with a
retry-path submission of the job carrying the incremented counter after
a fixed (non-exponential) 3000 ms delay and no dead submission; at
MAX_RETRIES it is a dead event, with a dead-queue submission carrying
the incremented count and no retry submission. -/
theorem worker_failure_branch_spec (msg : JobMsg) (r : Nat)
    (errMsg duration now wid : String) (jobsFile : JobMap)
    (hr : msg.retries = some r) (hsim : simFailCond msg = false) :
    ((startWorkerHandle (some msg) false errMsg duration now wid jobsFile).events.map
        (fun e => (e.status, e.retries)) =
      [(some Status.processing, some r), (some Status.failed, some r),
        (some (if r + 1 < MAX_RETRIES then Status.retried else Status.dead),
          some (r + 1))]) ∧
    ((startWorkerHandle (some msg) false errMsg duration now wid jobsFile).events.map
        LogEvent.error = [none, some errMsg, none]) ∧
    (r + 1 < MAX_RETRIES →
      (startWorkerHandle (some msg) false errMsg duration now wid jobsFile).retrySub =
        some (3000, { msg with retries := some (r + 1) }) ∧
      (startWorkerHandle (some msg) false errMsg duration now wid jobsFile).deadSub =
        none) ∧
    (r + 1 = MAX_RETRIES →
      (startWorkerHandle (some msg) false errMsg duration now wid jobsFile).retrySub =
        none ∧
      (startWorkerHandle (some msg) false errMsg duration now wid jobsFile).deadSub =
        some { jobId := msg.jobId
               filepath := msg.filepath
               processedFilename := workerProcFilename msg
               retries := r + 1 }) := by
  have hgd : msg.retries.getD 0 = r := by rw [hr]; rfl
  by_cases hm : MAX_RETRIES ≤ r + 1
  · have hnotlt : ¬ (r + 1 < MAX_RETRIES) := by omega
    refine ⟨?_, ?_, ?_, ?_⟩ <;>
      simp [startWorkerHandle, hsim, hgd, hm, hnotlt, workerProcessingEv,
        workerFailedEv, workerDeadEv, workerRetriedEv]
  · have hlt : r + 1 < MAX_RETRIES := by omega
    have hne : ¬ (r + 1 = MAX_RETRIES) := by omega
    refine ⟨?_, ?_, ?_, ?_⟩ <;>
      simp [startWorkerHandle, hsim, hgd, hm, hlt, hne, workerProcessingEv,
        workerFailedEv, workerDeadEv, workerRetriedEv]

/-- C2 witness: the failure branch evaluated on a concrete first-attempt
message outside the fault-injection seam. -/
theorem worker_failure_branch_spec_witness :
    JobMsg.retries { jobId := "j1", originalName := some ("cat.jpg"), retries := some 0 } =
      some 0 ∧
    simFailCond { jobId := "j1", originalName := some ("cat.jpg"), retries := some 0 } =
      false ∧
    (((startWorkerHandle
        (some { jobId := "j1", originalName := some ("cat.jpg"), retries := some 0 })
        false ("boom") "0.5" "t" "w" []).events.map
          (fun e => (e.status, e.retries)) =
      [(some Status.processing, some 0), (some Status.failed, some 0),
        (some (if 0 + 1 < MAX_RETRIES then Status.retried else Status.dead),
          some (0 + 1))]) ∧
    ((startWorkerHandle
        (some { jobId := "j1", originalName := some ("cat.jpg"), retries := some 0 })
        false ("boom") "0.5" "t" "w" []).events.map
        LogEvent.error = [none, some ("boom"), none]) ∧
    (0 + 1 < MAX_RETRIES →
      (startWorkerHandle
          (some { jobId := "j1", originalName := some ("cat.jpg"), retries := some 0 })
          false ("boom") "0.5" "t" "w" []).retrySub =
        some (3000, { jobId := "j1", originalName := some ("cat.jpg"),
                      retries := some (0 + 1) }) ∧
      (startWorkerHandle
          (some { jobId := "j1", originalName := some ("cat.jpg"), retries := some 0 })
          false ("boom") "0.5" "t" "w" []).deadSub = none) ∧
    (0 + 1 = MAX_RETRIES →
      (startWorkerHandle
          (some { jobId := "j1", originalName := some ("cat.jpg"), retries := some 0 })
          false ("boom") "0.5" "t" "w" []).retrySub = none ∧
      (startWorkerHandle
          (some { jobId := "j1", originalName := some ("cat.jpg"), retries := some 0 })
          false ("boom") "0.5" "t" "w" []).deadSub =
        some { jobId :=
                 JobMsg.jobId { jobId := "j1", originalName := some ("cat.jpg"),
                                retries := some 0 }
               filepath :=
                 JobMsg.filepath { jobId := "j1", originalName := some ("cat.jpg"),
                                   retries := some 0 }
               processedFilename :=
                 workerProcFilename { jobId := "j1", originalName := some ("cat.jpg"),
                                      retries := some 0 }
               retries := 0 + 1 })) :=
  ⟨rfl, by decide,
    worker_failure_branch_spec
      { jobId := "j1", originalName := some ("cat.jpg"), retries := some 0 }
      0 ("boom") "0.5" "t" "w" [] rfl (by decide)⟩

/-- C4: processing one successful message in the worker main-queue
consumer changes the job store file: starting from an empty store, the
success path writes a record carrying the produced output name and a
success status directly, so after job creation the store is not mutated
exclusively by the log broadcaster. -/
theorem worker_success_path_writes_store :
    (startWorkerHandle
        (some { jobId := "11112222-3333", originalName := some ("cat.jpg"),
                retries := some 0 })
        true ("") "0.42" "t1" "w7" []).store =
      [("11112222-3333",
        { originalName := some ("cat.jpg"), status := some Status.success,
          lastUpdated := some ("t1"), processedFilename := some ("cat-11112222.jpg") })] ∧
    (startWorkerHandle
        (some { jobId := "11112222-3333", originalName := some ("cat.jpg"),
                retries := some 0 })
        true ("") "0.42" "t1" "w7" []).store ≠ ([] : JobMap) := by
  exact ⟨by decide, by decide⟩

/-- C4 amended: the failure path of the worker leaves the job store file
unchanged — its updates reach the store only through the published
status events — and a message that fails to parse also leaves it
unchanged; the success path, however, in addition to publishing events,
writes the produced output name, original name, success status and
timestamp directly into the job store. -/
theorem worker_store_effect_by_path (msg : JobMsg)
    (errMsg duration now wid : String) (jobsFile : JobMap)
    (hsim : simFailCond msg = false) :
    (startWorkerHandle (some msg) false errMsg duration now wid jobsFile).store =
      jobsFile ∧
    (startWorkerHandle (some msg) true errMsg duration now wid jobsFile).store =
      workerSuccessStore jobsFile msg now ∧
    (startWorkerHandle none true errMsg duration now wid jobsFile).store =
      jobsFile := by
  refine ⟨?_, ?_, rfl⟩
  · simp [startWorkerHandle, hsim, apply_ite WorkerResult.store]
  · simp [startWorkerHandle, hsim]

/-- C4 amended witness: the store effects of both paths evaluated on a
concrete message. -/
theorem worker_store_effect_by_path_witness :
    simFailCond { jobId := "j2", originalName := some ("cat.jpg"), retries := some 0 } =
      false ∧
    ((startWorkerHandle
        (some { jobId := "j2", originalName := some ("cat.jpg"), retries := some 0 })
        false ("boom") "0.5" "t" "w" []).store = [] ∧
    (startWorkerHandle
        (some { jobId := "j2", originalName := some ("cat.jpg"), retries := some 0 })
        true ("boom") "0.5" "t" "w" []).store =
      workerSuccessStore []
        { jobId := "j2", originalName := some ("cat.jpg"), retries := some 0 } "t" ∧
    (startWorkerHandle none true ("boom") "0.5" "t" "w" ([] : JobMap)).store = []) :=
  ⟨by decide,
    worker_store_effect_by_path
      { jobId := "j2", originalName := some ("cat.jpg"), retries := some 0 }
      "boom" "0.5" "t" "w" [] (by decide)⟩

/-- Over a job lifetime started at any retry count below the maximum, the
retry counters attached to the published events form a non-decreasing
sequence bounded below by the starting count and above by MAX_RETRIES. -/
theorem jobTrace_retries_props (outcome : Nat → Bool)
    (errMsg duration now wid : String) (jobsFile : JobMap) :
    ∀ (fuel : Nat) (msg : JobMsg) (r : Nat),
      msg.retries = some r → r < MAX_RETRIES →
      List.Chain' (· ≤ ·)
        (retriesOf (jobTrace outcome errMsg duration now wid jobsFile msg fuel)) ∧
      ∀ k ∈ retriesOf (jobTrace outcome errMsg duration now wid jobsFile msg fuel),
        r ≤ k ∧ k ≤ MAX_RETRIES := by
  intro fuel
  induction fuel with
  | zero =>
    intro msg r hr hlt
    simp [jobTrace, retriesOf]
  | succ fuel ih =>
    intro msg r hr hlt
    have hgd : msg.retries.getD 0 = r := by rw [hr]; rfl
    by_cases hc : (simFailCond msg || !outcome r) = true
    · by_cases hm : MAX_RETRIES ≤ r + 1
      · have htr : jobTrace outcome errMsg duration now wid jobsFile msg (fuel + 1) =
            [workerProcessingEv msg wid now,
             workerFailedEv msg
               (if simFailCond msg then simFailMsg else errMsg) wid now,
             workerDeadEv msg (r + 1) wid now] := by
          simp [jobTrace, startWorkerHandle, hgd, hc, hm]
        rw [htr]
        simp [retriesOf, workerProcessingEv, workerFailedEv, workerDeadEv,
          List.chain'_cons]
        omega
      · have htr : jobTrace outcome errMsg duration now wid jobsFile msg (fuel + 1) =
            [workerProcessingEv msg wid now,
             workerFailedEv msg
               (if simFailCond msg then simFailMsg else errMsg) wid now,
             workerRetriedEv msg (r + 1) wid now] ++
            jobTrace outcome errMsg duration now wid jobsFile
              { msg with retries := some (r + 1) } fuel := by
          simp [jobTrace, startWorkerHandle, hgd, hc, hm, retryRelayForward]
        have hih := ih { msg with retries := some (r + 1) } (r + 1) rfl (by omega)
        rw [htr]
        constructor
        · rw [retriesOf, List.filterMap_append, List.chain'_append]
          refine ⟨?_, hih.1, ?_⟩
          · simp [workerProcessingEv, workerFailedEv, workerRetriedEv, hgd,
              List.chain'_cons]
          · intro x hx y hy
            simp [workerProcessingEv, workerFailedEv, workerRetriedEv] at hx
            have hymem : y ∈ retriesOf (jobTrace outcome errMsg duration now wid
                jobsFile { msg with retries := some (r + 1) } fuel) :=
              List.mem_of_mem_head? hy
            have := (hih.2 y hymem).1
            omega
        · intro k hk
          rw [retriesOf, List.filterMap_append] at hk
          rcases List.mem_append.mp hk with hk1 | hk2
          · simp [workerProcessingEv, workerFailedEv, workerRetriedEv] at hk1
            rcases hk1 with rfl | rfl | rfl <;> omega
          · have := hih.2 k hk2
            omega
    · have htr : jobTrace outcome errMsg duration now wid jobsFile msg (fuel + 1) =
          [workerProcessingEv msg wid now, workerSuccessEv msg duration wid now] := by
        simp [jobTrace, startWorkerHandle, hgd, hc]
      rw [htr]
      simp [retriesOf, workerProcessingEv, workerSuccessEv, hgd, List.chain'_cons]
      omega

/-- C3: the retry counters the worker attaches to the events of a fresh
job lifetime (each attempt run by the main-queue handler, retries relayed
back unchanged) form a non-decreasing sequence never exceeding
MAX_RETRIES; and each store merge of an event carrying a retries value
records exactly that value, so the retries values recorded in the job
store after the merges of such a trace follow the same non-decreasing,
capped sequence when the events are merged in lifetime order. -/
theorem retries_monotone_and_capped (outcome : Nat → Bool) (msg : JobMsg)
    (errMsg duration now wid : String) (jobsFile jobs : JobMap)
    (log : LogEvent) (jid : String) (n : Nat)
    (hmsg : msg.retries = some 0)
    (hjid : log.jobId = some jid) (hne : jid ≠ "") (hn : log.retries = some n) :
    (List.Chain' (· ≤ ·)
        (retriesOf
          (jobTrace outcome errMsg duration now wid jobsFile msg MAX_RETRIES)) ∧
      (retriesOf
          (jobTrace outcome errMsg duration now wid jobsFile msg MAX_RETRIES)).all
        (fun k => k ≤ MAX_RETRIES) = true) ∧
    (findJob (consumeLogStore jobs log) jid).bind JobRecord.retries = some n := by
  have h := jobTrace_retries_props outcome errMsg duration now wid jobsFile
    MAX_RETRIES msg 0 hmsg (by simp [MAX_RETRIES])
  refine ⟨⟨h.1, ?_⟩, ?_⟩
  · rw [List.all_eq_true]
    intro k hk
    exact decide_eq_true ((h.2 k hk).2)
  · rw [consumeLogStore_find jobs log jid hjid hne]
    simp [mergeRecord, hn]

/-- C3 witness: the trace and store-merge facts evaluated on a concrete
always-failing job and a concrete merged event. -/
theorem retries_monotone_and_capped_witness :
    JobMsg.retries { jobId := "j1", originalName := some ("a.jpg"), retries := some 0 } =
      some 0 ∧
    LogEvent.jobId { jobId := some ("j1"), retries := some 2, timestamp := "t" } =
      some ("j1") ∧
    ("j1" : String) ≠ "" ∧
    LogEvent.retries { jobId := some ("j1"), retries := some 2, timestamp := "t" } =
      some 2 ∧
    ((List.Chain' (· ≤ ·)
        (retriesOf
          (jobTrace (fun _ => false) "boom" "0.5" "t" "w" []
            { jobId := "j1", originalName := some ("a.jpg"), retries := some 0 }
            MAX_RETRIES)) ∧
      (retriesOf
          (jobTrace (fun _ => false) "boom" "0.5" "t" "w" []
            { jobId := "j1", originalName := some ("a.jpg"), retries := some 0 }
            MAX_RETRIES)).all
        (fun k => k ≤ MAX_RETRIES) = true) ∧
    (findJob
        (consumeLogStore []
          { jobId := some ("j1"), retries := some 2, timestamp := "t" })
        "j1").bind JobRecord.retries = some 2) :=
  ⟨rfl, rfl, by decide, rfl,
    retries_monotone_and_capped (fun _ => false)
      { jobId := "j1", originalName := some ("a.jpg"), retries := some 0 }
      "boom" "0.5" "t" "w" [] []
      { jobId := some ("j1"), retries := some 2, timestamp := "t" } "j1" 2
      rfl rfl (by decide) rfl⟩

end SharpBunny
